import Mathlib

/-!
Verification of `src/backend/app/config.py`.

The source declares a pydantic `BaseSettings` subclass with two required
`str` fields, `supabase_url` and `supabase_anon_key`, and an inner
`Config` class setting `env_file = ".env"`. Constructing `Settings()`
resolves each field from the process environment first and from the
parsed `.env` file second; with pydantic's default `case_sensitive =
False`, both lookups are case-insensitive (keys are lowercased, last
binding wins, matching Python dict-comprehension semantics). A field
present in neither source makes construction raise a validation error
listing the missing field names; any resolved string, including the
empty string, is accepted for a `str` field.

`BaseSettings` further defaults `extra = 'forbid'` (the child's legacy
`Config` only adds `env_file`), and the dotenv source feeds every key
it parses into construction, so a `.env` file holding any lowered key
that is not a declared field name makes `Settings()` raise (the
`extra_forbidden` validation failure, a `SettingsError` in the versions
where the dotenv source rejects such keys while sources are gathered).
Extra process-environment variables are harmless: the environment
source only extracts declared fields. The failure condition is the same
in all versions; only the error reported when an extra key and a
missing field coincide varies, and the model follows the
source-gathering order, reporting the extra keys first. The model below
embeds the environment table and the parsed override file as
association lists in insertion order; a missing `.env` file is `none`.
-/

set_option autoImplicit false

namespace AppConfig

/-- A process-environment table or a parsed `.env` file: key-value
bindings in insertion order. -/
abbrev EnvMap := List (String × String)

/-- Python's `str.lower()`: lowercase every character of the string. -/
def lowerStr (s : String) : String :=
  ⟨s.data.map Char.toLower⟩

/-- Case-insensitive lookup, as pydantic performs it with the default
`case_sensitive = False`: keys are lowercased into a dict (the last
binding for a lowered key wins) and the lowered field name is looked up. -/
def lookupCI (m : EnvMap) (name : String) : Option String :=
  (m.reverse.find? (fun p => lowerStr p.1 == lowerStr name)).map (fun p => p.2)

/-- The `Settings` model of `config.py`: two required string fields. -/
structure Settings where
  supabase_url : String
  supabase_anon_key : String
  deriving DecidableEq, Repr

/-- The errors construction can raise: pydantic's validation error
carrying the names of the fields it could not resolve, and the failure
(`extra_forbidden` entries, or a `SettingsError`) carrying the
undeclared keys the `.env` file supplied under `extra = 'forbid'`. -/
inductive ConfigError where
  | missingFields (fields : List String)
  | extraForbidden (keys : List String)
  deriving DecidableEq, Repr

/-- The declared fields of `Settings`, in declaration order. -/
inductive SettingsField where
  | url
  | anonKey
  deriving DecidableEq, Repr

/-- The declared (lowercase) name of a field, as written in `config.py`. -/
def SettingsField.name : SettingsField → String
  | .url => "supabase_url"
  | .anonKey => "supabase_anon_key"

/-- The other declared field. -/
def SettingsField.other : SettingsField → SettingsField
  | .url => .anonKey
  | .anonKey => .url

/-- Attribute access `settings.<field>`. -/
def Settings.get (s : Settings) : SettingsField → String
  | .url => s.supabase_url
  | .anonKey => s.supabase_anon_key

/-- The field names in declaration order, as pydantic iterates them. -/
def fieldNames : List String := ["supabase_url", "supabase_anon_key"]

/-- Resolve one declared field: the environment takes precedence, the
`.env` file (when it exists) is the fallback. A missing file behaves as
an empty one. -/
def resolveField (env : EnvMap) (dotenv : Option EnvMap) (name : String) :
    Option String :=
  match lookupCI env name with
  | some v => some v
  | none => lookupCI (dotenv.getD []) name

/-- The declared fields that resolve to no value, in declaration order;
these are the names pydantic's validation error reports. -/
def missingFieldNames (env : EnvMap) (dotenv : Option EnvMap) : List String :=
  fieldNames.filter (fun n => (resolveField env dotenv n).isNone)

/-- The lowered keys of a key-value map, first occurrence first and
without duplicates: the keys of the lowercased Python dict pydantic
builds from a source when `case_sensitive = False`. -/
def loweredKeys (m : EnvMap) : List String :=
  (m.map (fun p => lowerStr p.1)).eraseDups

/-- The undeclared keys the override file supplies: its lowered keys
that name no declared field. Under the `extra = 'forbid'` default these
make construction fail; a missing file supplies none. -/
def extraFileKeys (dotenv : Option EnvMap) : List String :=
  (loweredKeys (dotenv.getD [])).filter (fun k => !(fieldNames.contains k))

/-- `Settings()` in `config.py`: fail on undeclared override-file keys
(`extra = 'forbid'`), otherwise resolve both fields and succeed with
their values, or fail with the validation error naming every missing
field. -/
def Settings.construct (env : EnvMap) (dotenv : Option EnvMap) :
    Except ConfigError Settings :=
  if extraFileKeys dotenv = [] then
    match resolveField env dotenv "supabase_url",
          resolveField env dotenv "supabase_anon_key" with
    | some u, some k => .ok { supabase_url := u, supabase_anon_key := k }
    | _, _ => .error (.missingFields (missingFieldNames env dotenv))
  else .error (.extraForbidden (extraFileKeys dotenv))

/-- Attribute assignment `settings.supabase_url = v`. The source sets
neither `frozen = True` nor `allow_mutation = False` in `Config`, so
pydantic leaves the model mutable and assignment replaces the stored
value; modelled by explicit state passing. -/
def Settings.assignUrl (s : Settings) (v : String) : Settings :=
  { s with supabase_url := v }

/-- Attribute assignment `settings.supabase_anon_key = v`, as
`Settings.assignUrl`. -/
def Settings.assignAnonKey (s : Settings) (v : String) : Settings :=
  { s with supabase_anon_key := v }

/-! ### Helper lemmas -/

theorem lowerStr_field_name (f : SettingsField) : lowerStr f.name = f.name := by
  cases f <;> decide

theorem resolveField_of_env (env : EnvMap) (dotenv : Option EnvMap)
    (name v : String) (h : lookupCI env name = some v) :
    resolveField env dotenv name = some v := by
  simp [resolveField, h]

theorem resolveField_of_dotenv (env : EnvMap) (file : EnvMap) (name : String)
    (h : lookupCI env name = none) :
    resolveField env (some file) name = lookupCI file name := by
  simp [resolveField, h]

theorem construct_ok (env : EnvMap) (dotenv : Option EnvMap) (u k : String)
    (hex : extraFileKeys dotenv = [])
    (h1 : resolveField env dotenv "supabase_url" = some u)
    (h2 : resolveField env dotenv "supabase_anon_key" = some k) :
    Settings.construct env dotenv
      = .ok { supabase_url := u, supabase_anon_key := k } := by
  simp [Settings.construct, hex, h1, h2]

theorem construct_error (env : EnvMap) (dotenv : Option EnvMap)
    (hex : extraFileKeys dotenv = [])
    (h : resolveField env dotenv "supabase_url" = none ∨
         resolveField env dotenv "supabase_anon_key" = none) :
    Settings.construct env dotenv
      = .error (.missingFields (missingFieldNames env dotenv)) := by
  cases h1 : resolveField env dotenv "supabase_url" <;>
    cases h2 : resolveField env dotenv "supabase_anon_key" <;>
      simp_all [Settings.construct]

theorem construct_ok_iff (env : EnvMap) (dotenv : Option EnvMap) (s : Settings) :
    Settings.construct env dotenv = .ok s ↔
      extraFileKeys dotenv = [] ∧
      resolveField env dotenv "supabase_url" = some s.supabase_url ∧
      resolveField env dotenv "supabase_anon_key" = some s.supabase_anon_key := by
  obtain ⟨su, sk⟩ := s
  by_cases hex : extraFileKeys dotenv = []
  · cases h1 : resolveField env dotenv "supabase_url" <;>
      cases h2 : resolveField env dotenv "supabase_anon_key" <;>
        simp_all [Settings.construct, eq_comm]
  · simp [Settings.construct, hex]

/-! ### Claim theorems -/

/-- C1 counterexample: both declared variables are set in the process
environment to non-empty strings, yet construction fails, because the
override file holds the undeclared key `extra_key` and `extra = 'forbid'`
rejects it. -/
theorem c1_counterexample :
    lookupCI [("supabase_url", "u"), ("supabase_anon_key", "k")] "supabase_url"
      = some "u" ∧
    lookupCI [("supabase_url", "u"), ("supabase_anon_key", "k")] "supabase_anon_key"
      = some "k" ∧
    Settings.construct [("supabase_url", "u"), ("supabase_anon_key", "k")]
        (some [("extra_key", "1")])
      = .error (.extraForbidden ["extra_key"]) :=
  ⟨rfl, rfl, rfl⟩

/-- C1 (amended): whenever both declared variables are set in the
process environment to non-empty strings and the override file supplies
no undeclared keys, constructing `Settings` succeeds and its two fields
equal exactly those environment values. -/
theorem c1_env_values (env : EnvMap) (dotenv : Option EnvMap) (u k : String)
    (hex : extraFileKeys dotenv = [])
    (hu : lookupCI env "supabase_url" = some u)
    (hk : lookupCI env "supabase_anon_key" = some k)
    (_hu0 : u ≠ "") (_hk0 : k ≠ "") :
    Settings.construct env dotenv
      = .ok { supabase_url := u, supabase_anon_key := k } :=
  construct_ok env dotenv u k hex
    (resolveField_of_env env dotenv _ u hu)
    (resolveField_of_env env dotenv _ k hk)

/-- Witness for the amended C1 at a concrete environment. -/
theorem c1_env_values_witness :
    (extraFileKeys (some [("supabase_url", "other")]) = [] ∧
      lookupCI [("SUPABASE_URL", "https://x.supabase.co"), ("SUPABASE_ANON_KEY", "anon")]
        "supabase_url" = some "https://x.supabase.co" ∧
      ("https://x.supabase.co" : String) ≠ "") ∧
    Settings.construct [("SUPABASE_URL", "https://x.supabase.co"), ("SUPABASE_ANON_KEY", "anon")]
        (some [("supabase_url", "other")])
      = .ok { supabase_url := "https://x.supabase.co", supabase_anon_key := "anon" } :=
  ⟨⟨rfl, rfl, by decide⟩,
    c1_env_values _ _ _ _ rfl rfl rfl (by decide) (by decide)⟩

/-- C2 counterexample: with both declared variables set and no field
missing, an undeclared key in the override file makes construction fail
with the forbidden-extra-keys error, an error kind other than the
missing-fields one and naming no missing field. -/
theorem c2_counterexample :
    missingFieldNames [("supabase_url", "u"), ("supabase_anon_key", "k")]
        (some [("extra_key", "1")]) = [] ∧
    Settings.construct [("supabase_url", "u"), ("supabase_anon_key", "k")]
        (some [("extra_key", "1")])
      = .error (.extraForbidden ["extra_key"]) ∧
    ConfigError.extraForbidden ["extra_key"]
      ≠ ConfigError.missingFields ["extra_key"] :=
  ⟨rfl, rfl, by decide⟩

/-- C2 (amended): when a declared variable resolves from neither the
environment nor the override file, and the file supplies no undeclared
keys, construction fails with the missing-fields error, whose field
list names the missing variable; and every error any construction can
produce is of the missing-fields kind or the forbidden-extra-keys kind. -/
theorem c2_missing_field_error (env : EnvMap) (dotenv : Option EnvMap) (name : String)
    (hex : extraFileKeys dotenv = [])
    (hmem : name ∈ fieldNames) (hnone : resolveField env dotenv name = none) :
    (∃ l, Settings.construct env dotenv = .error (.missingFields l) ∧ name ∈ l) ∧
    (∀ (env2 : EnvMap) (dotenv2 : Option EnvMap) (e : ConfigError),
      Settings.construct env2 dotenv2 = .error e →
        (∃ l, e = .missingFields l) ∨ (∃ l, e = .extraForbidden l)) := by
  constructor
  · refine ⟨missingFieldNames env dotenv, construct_error env dotenv hex ?_, ?_⟩
    · simp only [fieldNames, List.mem_cons, List.mem_singleton, List.not_mem_nil,
        or_false] at hmem
      rcases hmem with h | h <;> rw [h] at hnone
      · exact Or.inl hnone
      · exact Or.inr hnone
    · simp [missingFieldNames, List.mem_filter, hmem, hnone]
  · intro env2 dotenv2 e he
    cases e
    · exact Or.inl ⟨_, rfl⟩
    · exact Or.inr ⟨_, rfl⟩

/-- Witness for the amended C2 at the empty environment with no
override file. -/
theorem c2_missing_field_error_witness :
    (extraFileKeys none = [] ∧ "supabase_anon_key" ∈ fieldNames ∧
      resolveField [] none "supabase_anon_key" = none) ∧
    ((∃ l, Settings.construct [] none = .error (.missingFields l) ∧
        "supabase_anon_key" ∈ l) ∧
      (∀ (env2 : EnvMap) (dotenv2 : Option EnvMap) (e : ConfigError),
        Settings.construct env2 dotenv2 = .error e →
          (∃ l, e = .missingFields l) ∨ (∃ l, e = .extraForbidden l))) :=
  ⟨⟨rfl, by decide, rfl⟩, c2_missing_field_error [] none _ rfl (by decide) rfl⟩

/-- C3 counterexample: `supabase_url` is unset in the environment and
present in the override file, yet construction fails, because the other
declared field resolves from neither source. -/
theorem c3_counterexample :
    lookupCI [] "supabase_url" = none ∧
    lookupCI [("supabase_url", "https://file.supabase.co")] "supabase_url"
      = some "https://file.supabase.co" ∧
    Settings.construct [] (some [("supabase_url", "https://file.supabase.co")])
      = .error (.missingFields ["supabase_anon_key"]) :=
  ⟨rfl, rfl, rfl⟩

/-- C3 (amended): for every declared field, if its variable is unset in
the environment but present in the override file, the other declared
field also resolves, and the file supplies no undeclared keys,
construction succeeds and the field equals the file's value. -/
theorem c3_file_fallback (f : SettingsField) (env file : EnvMap) (v : String)
    (hex : extraFileKeys (some file) = [])
    (henv : lookupCI env f.name = none)
    (hfile : lookupCI file f.name = some v)
    (hother : (resolveField env (some file) f.other.name).isSome) :
    ∃ s, Settings.construct env (some file) = .ok s ∧ s.get f = v := by
  obtain ⟨w, hw⟩ := Option.isSome_iff_exists.mp hother
  have hself : resolveField env (some file) f.name = some v :=
    (resolveField_of_dotenv env file f.name henv).trans hfile
  cases f
  · exact ⟨⟨v, w⟩, construct_ok env (some file) v w hex hself hw, rfl⟩
  · exact ⟨⟨w, v⟩, construct_ok env (some file) w v hex hw hself, rfl⟩

/-- Witness for the amended C3 at a concrete file-only configuration. -/
theorem c3_file_fallback_witness :
    (extraFileKeys
        (some [("supabase_url", "https://file.supabase.co"), ("supabase_anon_key", "anon")])
        = [] ∧
      lookupCI [] (SettingsField.url).name = none ∧
      lookupCI [("supabase_url", "https://file.supabase.co"), ("supabase_anon_key", "anon")]
        (SettingsField.url).name = some "https://file.supabase.co") ∧
    (∃ s, Settings.construct []
        (some [("supabase_url", "https://file.supabase.co"), ("supabase_anon_key", "anon")])
        = .ok s ∧ s.get .url = "https://file.supabase.co") :=
  ⟨⟨rfl, rfl, rfl⟩, c3_file_fallback .url [] _ _ rfl rfl rfl (by decide)⟩

/-- C4: when a declared variable is present in both the environment and
the override file with differing values, the constructed field holds the
environment's value, not the file's. -/
theorem c4_env_precedence (f : SettingsField) (env file : EnvMap)
    (ve vf : String) (s : Settings)
    (henv : lookupCI env f.name = some ve)
    (hfile : lookupCI file f.name = some vf)
    (hne : ve ≠ vf)
    (hok : Settings.construct env (some file) = .ok s) :
    s.get f = ve ∧ s.get f ≠ vf := by
  obtain ⟨-, h1, h2⟩ := (construct_ok_iff env (some file) s).mp hok
  have hself : resolveField env (some file) f.name = some ve :=
    resolveField_of_env env (some file) f.name ve henv
  cases f
  · simp only [SettingsField.name] at hself
    rw [hself] at h1
    have h := Option.some_injective _ h1
    simp [Settings.get, ← h, hne]
  · simp only [SettingsField.name] at hself
    rw [hself] at h2
    have h := Option.some_injective _ h2
    simp [Settings.get, ← h, hne]

/-- Witness for C4 at a concrete environment and override file that give
the URL field differing values. -/
theorem c4_env_precedence_witness :
    (lookupCI [("supabase_url", "env-url"), ("supabase_anon_key", "anon")]
        (SettingsField.url).name = some "env-url" ∧
      lookupCI [("supabase_url", "file-url")] (SettingsField.url).name = some "file-url") ∧
    ((Settings.mk "env-url" "anon").get .url = "env-url" ∧
      (Settings.mk "env-url" "anon").get .url ≠ "file-url") :=
  ⟨⟨rfl, rfl⟩,
    c4_env_precedence .url [("supabase_url", "env-url"), ("supabase_anon_key", "anon")]
      [("supabase_url", "file-url")] "env-url" "file-url" (Settings.mk "env-url" "anon")
      rfl rfl (by decide) rfl⟩

/-- C5 counterexample: `supabase_url` resolves to the empty string, yet
construction succeeds; an empty string does not make construction fail. -/
theorem c5_counterexample :
    lookupCI [("supabase_url", ""), ("supabase_anon_key", "anon")] "supabase_url"
      = some "" ∧
    Settings.construct [("supabase_url", ""), ("supabase_anon_key", "anon")] none
      = .ok { supabase_url := "", supabase_anon_key := "anon" } :=
  ⟨rfl, rfl⟩

/-- C5 (amended): construction raises a configuration error exactly
when some required field cannot be resolved to a string at all, that is,
when it is absent from both sources, or when the override file supplies
an undeclared key; a field resolving to the empty string is accepted. -/
theorem c5_error_iff_unresolvable (env : EnvMap) (dotenv : Option EnvMap) :
    (∃ e, Settings.construct env dotenv = .error e) ↔
      (extraFileKeys dotenv ≠ [] ∨
       resolveField env dotenv "supabase_url" = none ∨
       resolveField env dotenv "supabase_anon_key" = none) := by
  by_cases hex : extraFileKeys dotenv = []
  · cases h1 : resolveField env dotenv "supabase_url" <;>
      cases h2 : resolveField env dotenv "supabase_anon_key" <;>
        simp [Settings.construct, hex, h1, h2]
  · simp [Settings.construct, hex]

/-- C6: constructing `Settings` twice against the same environment and
override-file state yields field-for-field equal values. -/
theorem c6_idempotent (env : EnvMap) (dotenv : Option EnvMap) (s1 s2 : Settings)
    (h1 : Settings.construct env dotenv = .ok s1)
    (h2 : Settings.construct env dotenv = .ok s2) :
    s1.supabase_url = s2.supabase_url ∧
    s1.supabase_anon_key = s2.supabase_anon_key := by
  rw [h1] at h2
  injection h2 with h
  rw [h]
  exact ⟨rfl, rfl⟩

/-- Witness for C6 at a concrete environment. -/
theorem c6_idempotent_witness :
    (Settings.construct [("supabase_url", "u"), ("supabase_anon_key", "k")] none
        = .ok (Settings.mk "u" "k")) ∧
    ((Settings.mk "u" "k").supabase_url = (Settings.mk "u" "k").supabase_url ∧
      (Settings.mk "u" "k").supabase_anon_key = (Settings.mk "u" "k").supabase_anon_key) :=
  ⟨rfl, c6_idempotent [("supabase_url", "u"), ("supabase_anon_key", "k")] none
    (Settings.mk "u" "k") (Settings.mk "u" "k") rfl rfl⟩

/-- C7: whenever construction succeeds, each field holds the string its
resolution produced; and construction fails in every case where some
declared field resolves to no string. -/
theorem c7_fields_are_strings (env : EnvMap) (dotenv : Option EnvMap) :
    (∀ s : Settings, Settings.construct env dotenv = .ok s →
      resolveField env dotenv "supabase_url" = some s.supabase_url ∧
      resolveField env dotenv "supabase_anon_key" = some s.supabase_anon_key) ∧
    ((resolveField env dotenv "supabase_url" = none ∨
      resolveField env dotenv "supabase_anon_key" = none) →
      ∃ e, Settings.construct env dotenv = .error e) := by
  constructor
  · intro s hs
    exact ((construct_ok_iff env dotenv s).mp hs).2
  · intro h
    cases hc : Settings.construct env dotenv with
    | error e => exact ⟨e, rfl⟩
    | ok s =>
      obtain ⟨-, h1, h2⟩ := (construct_ok_iff env dotenv s).mp hc
      rcases h with h | h <;> simp_all

/-- Witness for C7: with a field resolving from neither source,
construction fails. -/
theorem c7_fields_are_strings_witness :
    (resolveField [] none "supabase_url" = none) ∧
    (∃ e, Settings.construct [] none = .error e) :=
  ⟨rfl, (c7_fields_are_strings [] none).2 (Or.inl rfl)⟩

/-- C8 counterexample: attribute assignment, which pydantic permits
because the source freezes nothing, changes the URL field of a
constructed `Settings`. -/
theorem c8_counterexample :
    (Settings.assignUrl (Settings.mk "u" "k") "changed").supabase_url
      ≠ (Settings.mk "u" "k").supabase_url := by
  decide

/-- C8 (amended): `Settings` is mutable: assigning a field replaces that
field's value and leaves the other field unchanged; the source
configures no immutability. -/
theorem c8_assignment_mutates (s : Settings) (v : String) :
    (s.assignUrl v).supabase_url = v ∧
    (s.assignUrl v).supabase_anon_key = s.supabase_anon_key ∧
    (s.assignAnonKey v).supabase_anon_key = v ∧
    (s.assignAnonKey v).supabase_url = s.supabase_url :=
  ⟨rfl, rfl, rfl, rfl⟩

/-- C9: environment-variable resolution is case-insensitive: any
spelling of a declared field's name that lowercases to it supplies the
field's value, and resolves exactly as the declared spelling does. -/
theorem c9_case_insensitive (f : SettingsField) (key v : String)
    (h : lowerStr key = f.name) :
    lookupCI [(key, v)] f.name = some v ∧
    lookupCI [(key, v)] f.name = lookupCI [(f.name, v)] f.name := by
  have hname : lowerStr f.name = f.name := lowerStr_field_name f
  constructor
  · simp [lookupCI, h, hname]
  · simp [lookupCI, h, hname]

/-- Witness for C9: the uppercase spelling `SUPABASE_URL` supplies the
`supabase_url` field. -/
theorem c9_case_insensitive_witness :
    (lowerStr "SUPABASE_URL" = (SettingsField.url).name) ∧
    (lookupCI [("SUPABASE_URL", "x")] (SettingsField.url).name = some "x" ∧
      lookupCI [("SUPABASE_URL", "x")] (SettingsField.url).name
        = lookupCI [((SettingsField.url).name, "x")] (SettingsField.url).name) :=
  ⟨by decide, c9_case_insensitive .url "SUPABASE_URL" "x" (by decide)⟩

/-- C10: a missing override file is not an error: with both variables
set in the environment, construction succeeds from the environment
alone. -/
theorem c10_no_file_needed (env : EnvMap) (u k : String)
    (hu : lookupCI env "supabase_url" = some u)
    (hk : lookupCI env "supabase_anon_key" = some k) :
    Settings.construct env none
      = .ok { supabase_url := u, supabase_anon_key := k } :=
  construct_ok env none u k rfl
    (resolveField_of_env env none _ u hu)
    (resolveField_of_env env none _ k hk)

/-- Witness for C10 at a concrete environment with no override file. -/
theorem c10_no_file_needed_witness :
    (lookupCI [("supabase_url", "u"), ("supabase_anon_key", "k")] "supabase_url"
        = some "u") ∧
    Settings.construct [("supabase_url", "u"), ("supabase_anon_key", "k")] none
      = .ok { supabase_url := "u", supabase_anon_key := "k" } :=
  ⟨rfl, c10_no_file_needed [("supabase_url", "u"), ("supabase_anon_key", "k")]
    "u" "k" rfl rfl⟩

end AppConfig
